import Mathlib

/-!
# Verification of the ASKAP `askap.iceutils.Server` bootstrap layer

Shallow embedding of the service bootstrap / connection-resilience layer of
the askapsoft repository:

* `Code/Base/py-iceutils/current/askap/iceutils/server.py`
  (`Server.__init__`, `Server.get_config`, `Server.get_parameter`,
  `Server.wait_for_service`, `Server.setup_services`, `Server.add_service`);
* `Code/Components/Services/cpmanager/current/askap/ingest/server.py`
  (`IngestManager.initialize_services`: topic get-or-create and
  subscriber-adapter setup).

Remote calls made through the Ice middleware are modelled by explicit
outcome values (success / raised exception), and the retry loop consumes a
finite list of such outcomes, one per invocation of the wrapped callback.
-/

/-- The Ice exceptions that can be raised by a remote-lookup callback.
The first five constructors are exactly the classes named in the
`except (...)` clause of `Server.wait_for_service`; `otherExc` stands for
any other exception (carrying a description of it). -/
inductive IceExc : Type where
  | connectionRefused
  | noEndpoint
  | notRegistered
  | connectFailed
  | dnsException
  | otherExc (s : String)
deriving DecidableEq, Repr

/-- The `except (Ice.ConnectionRefusedException, Ice.NoEndpointException,
Ice.NotRegisteredException, Ice.ConnectFailedException, Ice.DNSException)`
clause: which exceptions the retry loop catches. -/
def isConnectivityExc : IceExc → Bool
  | .connectionRefused => true
  | .noEndpoint => true
  | .notRegistered => true
  | .connectFailed => true
  | .dnsException => true
  | .otherExc _ => false

/-- Outcome of one invocation of the callback passed to
`Server.wait_for_service`: it either returns a value or raises. -/
inductive CallOutcome (α : Type) : Type where
  | success (v : α)
  | raises (e : IceExc)
deriving DecidableEq, Repr

/-- Result of running `Server.wait_for_service` against a finite list of
modelled callback outcomes.  `pending` means the loop is still running
(every supplied outcome was consumed without terminating) — with
`retries = -1` and only connectivity failures the real loop never exits. -/
inductive WaitResult (α : Type) : Type where
  | ok (v : α)
  | timeout
  | fatal (e : IceExc)
  | pending
deriving DecidableEq, Repr

/-- Observable trace data of one `wait_for_service` run: its result, how
many times the callback was invoked, the final value of the `count`
variable, and how many `time.sleep(delay)` calls were executed. -/
structure WaitTrace (α : Type) : Type where
  result : WaitResult α
  invocations : Nat
  finalCount : Nat
  sleeps : Nat
deriving DecidableEq, Repr

/-- The `while not registry` loop of `Server.wait_for_service`
(server.py lines 139-159), with the callback's behaviour supplied as the
list of outcomes of its successive invocations.  `retries` is
`self._retries`; `count` starts at 0.  On a connectivity exception the code
checks `self._retries > -1 and self._retries == count`: if so it raises
`TimeoutError`; otherwise it increments `count`, sleeps and retries.  Any
other exception propagates out of the loop uncaught. -/
def waitLoop (retries : Int) (count invocations sleeps : Nat) :
    List (CallOutcome α) → WaitTrace α
  | [] => ⟨.pending, invocations, count, sleeps⟩
  | o :: rest =>
    match o with
    | .success v => ⟨.ok v, invocations + 1, count, sleeps⟩
    | .raises e =>
      if isConnectivityExc e then
        if retries > -1 ∧ retries = (count : Int) then
          ⟨.timeout, invocations + 1, count, sleeps⟩
        else
          waitLoop retries (count + 1) (invocations + 1) (sleeps + 1) rest
      else
        ⟨.fatal e, invocations + 1, count, sleeps⟩

/-- `Server.wait_for_service` (server.py lines 126-163): run the retry loop
with `count = 0` on the supplied callback behaviour. -/
def wait_for_service (retries : Int) (outcomes : List (CallOutcome α)) :
    WaitTrace α :=
  waitLoop retries 0 0 0 outcomes

/-- A list of `n` consecutive connection-refused outcomes (a callback that
raises a retryable connectivity error on every invocation). -/
def allRefused (n : Nat) : List (CallOutcome Nat) :=
  List.replicate n (.raises .connectionRefused)

/-- An invocation outcome on which the `except` clause fires: the callback
raised one of the five connectivity exceptions. -/
def isRetryOutcome : CallOutcome α → Bool
  | .success _ => false
  | .raises e => isConnectivityExc e

/-- A Python value as it can appear as a configuration-dictionary value or
as the `default` argument of `Server.get_parameter` (Python is untyped;
`None`, strings and integers are the shapes that occur in this code). -/
inductive PyVal : Type where
  | pynone
  | pystr (s : String)
  | pyint (n : Int)
deriving DecidableEq, Repr

/-- Python `d.get(k)` on a dictionary modelled as an association list with
unique keys: the value stored under `k`, if any. -/
def dictGet (d : List (String × PyVal)) (k : String) : Option PyVal :=
  (d.find? (fun p => p.1 == k)).map (fun p => p.2)

/-- The attributes of a `Server` instance that the modelled methods touch,
as set up by `Server.__init__` (server.py lines 63-79).  The Ice
communicator, adapters and logger are opaque to these methods'
control flow and are not part of the state. -/
structure ServerState : Type where
  parameters : Option (List (String × PyVal))
  service_key : String
  configurable : Bool
  monitoring : Bool
  retries : Int
  services : List (String × Nat)
deriving DecidableEq, Repr

/-- `Server.__init__(comm, fcmkey='', retries=-1)`: `parameters` starts as
`None`, `_services` empty, `monitoring` off, `configurable` on. -/
def server_init (fcmkey : String) (retries : Int) : ServerState :=
  { parameters := none
    service_key := fcmkey
    configurable := true
    monitoring := false
    retries := retries
    services := [] }

/-- The exception a `Server` method can raise outside the Ice call paths:
`AttributeError` (e.g. `None.get(...)` when `parameters` was never set). -/
inductive PyErr : Type where
  | attributeError (msg : String)
deriving DecidableEq, Repr

/-- `Server.get_parameter(key, default=None)` (server.py lines 115-124):
`return self.parameters.get(".".join((self.service_key, key)), default)`.
When `self.parameters` is still `None` the attribute access `.get` raises
`AttributeError`; otherwise it is a total dictionary lookup with an
explicit default. -/
def get_parameter (st : ServerState) (key : String) (default : PyVal) :
    Except PyErr PyVal :=
  match st.parameters with
  | none =>
    .error (.attributeError "NoneType object has no attribute get")
  | some d =>
    .ok ((dictGet d (st.service_key ++ "." ++ key)).getD default)

/-- The collaborators of `Server.get_config` that live outside this
repository's sources: `sys.argv`, `os.path.expanduser ∘ os.path.expandvars`
(path expansion), `open(p).read()` (`none` = the file cannot be opened),
and `askap.parset.parset_to_dict`. -/
structure ConfigEnv : Type where
  argv : List String
  expand : String → String
  readFile : String → Option String
  parset_to_dict : String → List (String × PyVal)

/-- How one call of `Server.get_config` terminates. -/
inductive ConfigOutcome : Type where
  | returnedUnconfigurable
  | loadedLocal (path : String)
  | raisedValueError (arg : String)
  | raisedIOError (path : String)
  | calledFCM
deriving DecidableEq, Repr

/-- `xs` begins with the characters `ps` (Python `str.startswith`, spelt
out on character lists so it evaluates by kernel reduction). -/
def listStartsWith : List Char → List Char → Bool
  | _, [] => true
  | [], _ :: _ => false
  | a :: s, b :: p => a == b && listStartsWith s p

/-- Python `s.startswith(pre)`. -/
def pyStartsWith (s pre : String) : Bool :=
  listStartsWith s.toList pre.toList

/-- Split a character list at every occurrence of `c` (Python
`str.split(sep)` with a one-character separator); always returns at least
one piece, and empty pieces between adjacent separators. -/
def splitOnChar (c : Char) : List Char → List (List Char)
  | [] => [[]]
  | x :: xs =>
    match splitOnChar c xs with
    | [] => if x == c then [[], []] else [[x]]
    | y :: ys => if x == c then [] :: y :: ys else (x :: y) :: ys

/-- Python `s.split(c)` for a one-character separator `c`. -/
def pySplit (s : String) (c : Char) : List String :=
  (splitOnChar c s.toList).map (fun cs => String.mk cs)

/-- The `for arg in sys.argv: if arg.startswith(key)` scan of
`Server.get_config`: the first argument starting with `"--config="`. -/
def findConfigArg (argv : List String) : Option String :=
  argv.find? (fun a => pyStartsWith a "--config=")

/-- The local-file branch of `Server.get_config` (server.py lines 98-102):
`k, v = arg.split("=")` — a `ValueError` unless the split has exactly two
parts, i.e. unless the path contains no further `=` —, then
`p = os.path.expanduser(os.path.expandvars(v))`,
`self.parameters = parset_to_dict(open(p).read())` (an `IOError` when the
file cannot be opened). -/
def loadLocalConfig (st : ServerState) (env : ConfigEnv) (arg : String) :
    ServerState × ConfigOutcome :=
  match pySplit arg '=' with
  | [_, v] =>
    match env.readFile (env.expand v) with
    | some contents =>
      ({st with parameters := some (env.parset_to_dict contents)},
        .loadedLocal (env.expand v))
    | none => (st, .raisedIOError (env.expand v))
  | _ => (st, .raisedValueError arg)

/-- `Server.get_config` (server.py lines 87-103).  If `configurable` is
off, return at once.  Otherwise scan `sys.argv` for the first argument
starting with `"--config="`; on a hit, load the configuration from the
referenced local file; without a hit, fall through to
`self._config_from_fcm()`. -/
def get_config (st : ServerState) (env : ConfigEnv) :
    ServerState × ConfigOutcome :=
  if ¬st.configurable then (st, .returnedUnconfigurable)
  else
    match findConfigArg env.argv with
    | some arg => loadLocalConfig st env arg
    | none => (st, .calledFCM)

/-- A run with a `--config=` argument whose file path itself contains `=`
(a perfectly legal filename): `"--config=/tmp/a=b.cfg".split("=")` yields
three parts, so the unpacking `k, v = arg.split("=")` raises `ValueError`.
The file system would happily serve the file. -/
def eqPathEnv : ConfigEnv :=
  { argv := ["serve", "--config=/tmp/a=b.cfg"]
    expand := fun s => s
    readFile := fun _ => some "cp.x = 1"
    parset_to_dict := fun _ => [("cp.x", .pystr "1")] }

/-- A run with a well-formed `--config=` argument referencing a readable
file (the path goes through user/environment expansion first). -/
def okPathEnv : ConfigEnv :=
  { argv := ["serve", "--config=$HOME/svc.cfg"]
    expand := fun _ => "/home/user/svc.cfg"
    readFile := fun p =>
      if p == "/home/user/svc.cfg" then some "cp.retries = 3" else none
    parset_to_dict := fun _ => [("cp.retries", .pyint 3)] }

/-- `Server.add_service(name, value)` (server.py lines 199-208):
`self._services.append({'name': name, 'value': value})`.  The
implementation object is modelled by an opaque numeric handle. -/
def add_service (st : ServerState) (name : String) (value : Nat) :
    ServerState :=
  {st with services := st.services ++ [(name, value)]}

/-- The overridden `initialize_services` hook, as far as `Server` itself
is concerned: a sequence of `add_service(name, value)` calls executed in
order on the server state. -/
def run_hook (st : ServerState) (calls : List (String × Nat)) :
    ServerState :=
  calls.foldl (fun s nv => add_service s nv.1 nv.2) st

/-- The externally observable steps of `Server.setup_services`
(server.py lines 165-186), in execution order. -/
inductive Event : Type where
  | createAdapter (name : String)
  | getConfig
  | createMonAdapter (name : String)
  | monAdd
  | monActivate
  | initHook
  | bind (name : String) (value : Nat)
  | activateMain
deriving DecidableEq, Repr

/-- `Event.bind` steps for each registered descriptor, in list order (the
`for service in self._services: self._adapter.add(...)` loop). -/
def bindEvents (l : List (String × Nat)) : List Event :=
  l.map (fun nv => .bind nv.1 nv.2)

/-- Is this event a descriptor binding into the main adapter? -/
def isBindEvent : Event → Bool
  | .bind _ _ => true
  | _ => false

/-- The monitoring block of `Server.setup_services` (server.py lines
171-177): present exactly when `self.monitoring` is set. -/
def monEvents (clsName : String) (monitoring : Bool) : List Event :=
  if monitoring then
    [.createMonAdapter (clsName ++ "MonitoringAdapter"), .monAdd,
      .monActivate]
  else []

/-- Everything `Server.setup_services` does before the
`initialize_services` hook: create the main adapter, run `get_config`,
and run the monitoring block when enabled. -/
def preEvents (clsName : String) (monitoring : Bool) : List Event :=
  [.createAdapter (clsName ++ "Adapter"), .getConfig]
  ++ monEvents clsName monitoring

/-- The sequence of steps `Server.setup_services` performs
(server.py lines 165-186), for a server in state `st` whose class is
named `clsName` and whose overridden `initialize_services` hook performs
the `add_service` calls `hookCalls`: create the main adapter, run
`get_config`, set up and activate the monitoring adapter when
`self.monitoring` is set, run the hook, bind every entry of
`self._services` into the main adapter in list order, and finally
activate the main adapter (through `wait_for_service`). -/
def setup_services_trace (clsName : String) (st : ServerState)
    (hookCalls : List (String × Nat)) : List Event :=
  preEvents clsName st.monitoring
  ++ [.initHook]
  ++ bindEvents (run_hook st hookCalls).services
  ++ [.activateMain]

/-- Equality of modelled call results (`Except`) is decidable when it is
on both sides. -/
instance {ε α : Type} [DecidableEq ε] [DecidableEq α] :
    DecidableEq (Except ε α) := fun x y =>
  match x, y with
  | .error a, .error b =>
    if h : a = b then .isTrue (by rw [h])
    else .isFalse fun hc => h (Except.error.inj hc)
  | .ok a, .ok b =>
    if h : a = b then .isTrue (by rw [h])
    else .isFalse fun hc => h (Except.ok.inj hc)
  | .error _, .ok _ => .isFalse fun hc => Except.noConfusion hc
  | .ok _, .error _ => .isFalse fun hc => Except.noConfusion hc

/-- The IceStorm exceptions the get-or-create protocol distinguishes:
`IceStorm.NoSuchTopic`, `IceStorm.TopicExists`, and anything else
(carrying a description). -/
inductive StormExc : Type where
  | noSuchTopic
  | topicExists
  | stormOther (s : String)
deriving DecidableEq, Repr

/-- The behaviour of the IceStorm topic manager as observed by one run of
the get-or-create sequence: the outcomes of the first `retrieve`, of
`create`, and of the fallback `retrieve`.  Topics are opaque numeric
handles. -/
structure TopicManager : Type where
  retrieve1 : Except StormExc Nat
  createT : Except StormExc Nat
  retrieve2 : Except StormExc Nat
deriving DecidableEq, Repr

/-- A call issued to the topic manager. -/
inductive TMCall : Type where
  | callRetrieve
  | callCreate
deriving DecidableEq, Repr

/-- The topic get-or-create protocol of
`IngestManager.initialize_services` (cpmanager server.py lines 38-44):
`try: topic = manager.retrieve(name)`, on `NoSuchTopic`
`try: topic = manager.create(name)`, on `TopicExists`
`topic = manager.retrieve(name)`.  Only those two exception classes are
caught; anything else propagates.  Returns the resulting topic (or the
propagated exception) together with the calls made, in order. -/
def topic_get_or_create (m : TopicManager) :
    Except StormExc Nat × List TMCall :=
  match m.retrieve1 with
  | .ok t => (.ok t, [.callRetrieve])
  | .error e =>
    if e = .noSuchTopic then
      match m.createT with
      | .ok t => (.ok t, [.callRetrieve, .callCreate])
      | .error e2 =>
        if e2 = .topicExists then
          (m.retrieve2, [.callRetrieve, .callCreate, .callRetrieve])
        else (.error e2, [.callRetrieve, .callCreate])
    else (.error e, [.callRetrieve])

/-- Outcomes of the four statements inside the bare `try/except:` of
`IngestManager.initialize_services` (cpmanager server.py lines 46-53):
`createObjectAdapterWithEndpoints`, `addWithUUID(...).ice_oneway()`,
`activate`, `subscribeAndGetPublisher`.  `.error s` is a raised exception
described by `s`. -/
structure AdapterBlock : Type where
  createAdapterWE : Except String Unit
  addWithUUID : Except String Unit
  activateSub : Except String Unit
  subscribeAndGetPublisher : Except String Unit
deriving DecidableEq, Repr

/-- The first exception raised inside the subscriber-adapter block, if
any (the statements run in order and stop at the first raise). -/
def firstBlockError (b : AdapterBlock) : Option String :=
  match b.createAdapterWE with
  | .error s => some s
  | .ok _ =>
    match b.addWithUUID with
    | .error s => some s
    | .ok _ =>
      match b.activateSub with
      | .error s => some s
      | .ok _ =>
        match b.subscribeAndGetPublisher with
        | .error s => some s
        | .ok _ => none

/-- The exception surfaced by the modelled part of
`IngestManager.initialize_services`. -/
inductive IngestExc : Type where
  | timeoutError
  | ice (e : IceExc)
  | storm (e : StormExc)
  | runtimeError (msg : String)
deriving DecidableEq, Repr

/-- How the modelled part of `IngestManager.initialize_services` ends. -/
inductive IngestResult : Type where
  | done (topic : Nat)
  | raised (e : IngestExc)
  | stillWaiting
deriving DecidableEq, Repr

/-- The external behaviour driving one run of the subscription sequence:
the outcomes of the successive `TopicManagerPrx.checkedCast` invocations
made through `wait_for_service` (the success value being the topic
manager's subsequent behaviour), and the behaviour of the
subscriber-adapter block. -/
structure IngestEnv : Type where
  managerOutcomes : List (CallOutcome TopicManager)
  block : AdapterBlock
deriving DecidableEq, Repr

/-- The topic-subscription part of `IngestManager.initialize_services`
(cpmanager server.py lines 28-53): resolve the topic manager through
`self.wait_for_service`, run the retrieve/create/retrieve protocol, then
run the subscriber-adapter block, whose failures — and only whose
failures — the bare `except:` converts into
`RuntimeError("ICE adapter initialisation failed")`, discarding the
original exception. -/
def initialize_services_subscription (retries : Int) (env : IngestEnv) :
    IngestResult :=
  match (wait_for_service retries env.managerOutcomes).result with
  | .pending => .stillWaiting
  | .timeout => .raised .timeoutError
  | .fatal e => .raised (.ice e)
  | .ok m =>
    match (topic_get_or_create m).1 with
    | .error e => .raised (.storm e)
    | .ok t =>
      match firstBlockError env.block with
      | some _ =>
        .raised (.runtimeError "ICE adapter initialisation failed")
      | none => .done t

/-- A topic manager losing the creation race: the first `retrieve` finds
no topic, `create` collides with a concurrent creator, the fallback
`retrieve` obtains the winner's topic. -/
def raceTopicManager : TopicManager :=
  { retrieve1 := .error .noSuchTopic
    createT := .error .topicExists
    retrieve2 := .ok 7 }

/-- A topic manager whose first `retrieve` raises a plain connectivity
loss — one of the exceptions the protocol does not catch. -/
def failingRetrieveManager : TopicManager :=
  { retrieve1 := .error (.stormOther "Ice.ConnectionLostException")
    createT := .error .topicExists
    retrieve2 := .ok 7 }

/-- A subscriber-adapter block with no failures. -/
def okBlock : AdapterBlock :=
  { createAdapterWE := .ok ()
    addWithUUID := .ok ()
    activateSub := .ok ()
    subscribeAndGetPublisher := .ok () }

/-- A subscriber-adapter block whose `activate` raises. -/
def badBlock : AdapterBlock :=
  { createAdapterWE := .ok ()
    addWithUUID := .ok ()
    activateSub := .error "Ice.NotRegisteredException"
    subscribeAndGetPublisher := .ok () }

/-- A run in which the topic manager resolves at once but its first
`retrieve` raises a connection loss. -/
def lostConnEnv : IngestEnv :=
  { managerOutcomes := [.success failingRetrieveManager]
    block := okBlock }

/-- A topic manager that finds the topic at the first `retrieve`. -/
def okTopicManager : TopicManager :=
  { retrieve1 := .ok 3
    createT := .error .topicExists
    retrieve2 := .ok 3 }

/-- A run in which topic establishment succeeds but the subscriber
adapter's `activate` raises. -/
def failingBlockEnv : IngestEnv :=
  { managerOutcomes := [.success okTopicManager]
    block := badBlock }

example : (wait_for_service 0 (allRefused 1)).result = .timeout := by decide
example : (wait_for_service 0 (allRefused 1)).invocations = 1 := by decide
example : (wait_for_service 2 (allRefused 5)).result = .timeout := by decide
example : (wait_for_service 2 (allRefused 5)).invocations = 3 := by decide
example : (wait_for_service (-1) (allRefused 5)).result = .pending := by decide
example :
    (wait_for_service (-1)
      (allRefused 3 ++ [.success 42])).result = .ok 42 := by decide
example :
    (wait_for_service 7
      ([.raises .noEndpoint, .raises (.otherExc "ValueError")] ++
        allRefused 3)) =
    ⟨.fatal (.otherExc "ValueError"), 2, 1, 1⟩ := by decide

lemma waitLoop_success_cons (retries : Int) (c inv sl : Nat) (v : α)
    (rest : List (CallOutcome α)) :
    waitLoop retries c inv sl (.success v :: rest) =
      ⟨.ok v, inv + 1, c, sl⟩ := rfl

lemma waitLoop_raises_cons (retries : Int) (c inv sl : Nat) (e : IceExc)
    (rest : List (CallOutcome α)) :
    waitLoop retries c inv sl (.raises e :: rest) =
      if isConnectivityExc e then
        if retries > -1 ∧ retries = (c : Int) then
          ⟨.timeout, inv + 1, c, sl⟩
        else waitLoop retries (c + 1) (inv + 1) (sl + 1) rest
      else ⟨.fatal e, inv + 1, c, sl⟩ := rfl

lemma waitLoop_retry_cons (retries : Int) (c inv sl : Nat) (e : IceExc)
    (rest : List (CallOutcome α)) (hconn : isConnectivityExc e = true) :
    waitLoop retries c inv sl (.raises e :: rest) =
      if retries > -1 ∧ retries = (c : Int) then ⟨.timeout, inv + 1, c, sl⟩
      else waitLoop retries (c + 1) (inv + 1) (sl + 1) rest := by
  rw [waitLoop_raises_cons, if_pos hconn]

lemma waitLoop_fatal_cons (retries : Int) (c inv sl : Nat) (e : IceExc)
    (rest : List (CallOutcome α)) (hconn : isConnectivityExc e = false) :
    waitLoop retries c inv sl (.raises e :: rest) =
      ⟨.fatal e, inv + 1, c, sl⟩ := by
  rw [waitLoop_raises_cons, if_neg (by simp [hconn])]

lemma waitLoop_all_retry_timeout (N : Nat) :
    ∀ (outs : List (CallOutcome α)) (c inv sl : Nat),
      (∀ o ∈ outs, isRetryOutcome o = true) →
      c ≤ N → N - c + 1 ≤ outs.length →
      waitLoop (N : Int) c inv sl outs =
        ⟨.timeout, inv + (N - c) + 1, N, sl + (N - c)⟩ := by
  intro outs
  induction outs with
  | nil => intro c inv sl _ hc hlen; simp at hlen
  | cons o rest ih =>
    intro c inv sl hall hc hlen
    have ho := hall o (List.mem_cons_self o rest)
    cases o with
    | success v => simp [isRetryOutcome] at ho
    | raises e =>
      have hconn : isConnectivityExc e = true := ho
      rw [waitLoop_retry_cons (N : Int) c inv sl e rest hconn]
      by_cases hcN : c = N
      · rw [if_pos (by constructor <;> [omega; exact_mod_cast hcN.symm])]
        rw [hcN]
        congr 1 <;> omega
      · have hclt : c < N := lt_of_le_of_ne hc hcN
        rw [if_neg (by omega)]
        rw [ih (c + 1) (inv + 1) (sl + 1)
          (fun o ho => hall o (List.mem_cons_of_mem _ ho))
          (by omega) (by simp only [List.length_cons] at hlen; omega)]
        congr 1 <;> omega

lemma waitLoop_prefix_retry (retries : Int) :
    ∀ (pre : List (CallOutcome α)) (c inv sl : Nat)
      (tail : List (CallOutcome α)),
      (∀ o ∈ pre, isRetryOutcome o = true) →
      (retries = -1 ∨ ((c : Int) + pre.length) ≤ retries) →
      waitLoop retries c inv sl (pre ++ tail) =
        waitLoop retries (c + pre.length) (inv + pre.length)
          (sl + pre.length) tail := by
  intro pre
  induction pre with
  | nil => intro c inv sl tail _ _; simp
  | cons o pre' ih =>
    intro c inv sl tail hall hbound
    have ho := hall o (List.mem_cons_self o pre')
    cases o with
    | success v => simp [isRetryOutcome] at ho
    | raises e =>
      have hconn : isConnectivityExc e = true := ho
      have hnottimeout : ¬(retries > -1 ∧ retries = (c : Int)) := by
        rcases hbound with h | h
        · omega
        · simp only [List.length_cons] at h; push_cast at h; omega
      rw [List.cons_append,
        waitLoop_retry_cons retries c inv sl e (pre' ++ tail) hconn,
        if_neg hnottimeout,
        ih (c + 1) (inv + 1) (sl + 1) tail
          (fun o ho => hall o (List.mem_cons_of_mem _ ho))
          (by rcases hbound with h | h
              · exact Or.inl h
              · right
                simp only [List.length_cons] at h
                push_cast at h ⊢
                omega)]
      simp only [List.length_cons]
      congr 1 <;> omega

lemma waitLoop_never_timeout_unbounded :
    ∀ (outs : List (CallOutcome α)) (c inv sl : Nat),
      (waitLoop (-1) c inv sl outs).result ≠ .timeout := by
  intro outs
  induction outs with
  | nil => intro c inv sl; simp [waitLoop]
  | cons o rest ih =>
    intro c inv sl
    cases o with
    | success v => rw [waitLoop_success_cons]; simp
    | raises e =>
      by_cases hconn : isConnectivityExc e = true
      · rw [waitLoop_retry_cons (-1) c inv sl e rest hconn,
          if_neg (by omega)]
        exact ih (c + 1) (inv + 1) (sl + 1)
      · rw [waitLoop_fatal_cons (-1) c inv sl e rest
          (Bool.not_eq_true _ ▸ hconn)]
        simp

/-- **C1.**  With a retry budget `retries = N ≥ 0`: if the wrapped callback
raises a retryable connectivity error on every invocation,
`wait_for_service` raises `TimeoutError` after exactly `N + 1` invocations
(having slept `N` times with `count = N`); and if the callback raises
retryable errors on its first `k ≤ N` invocations and then succeeds,
`wait_for_service` returns the callback's result after exactly `k + 1`
invocations — the remaining modelled outcomes are never consumed. -/
theorem wait_for_service_bounded_budget {α : Type} (N : Nat) :
    (∀ outs : List (CallOutcome α),
      (∀ o ∈ outs, isRetryOutcome o = true) → N + 1 ≤ outs.length →
      wait_for_service (N : Int) outs = ⟨.timeout, N + 1, N, N⟩) ∧
    (∀ (pre rest : List (CallOutcome α)) (v : α),
      (∀ o ∈ pre, isRetryOutcome o = true) → pre.length ≤ N →
      wait_for_service (N : Int) (pre ++ .success v :: rest) =
        ⟨.ok v, pre.length + 1, pre.length, pre.length⟩) := by
  constructor
  · intro outs hall hlen
    have := waitLoop_all_retry_timeout N outs 0 0 0 hall (Nat.zero_le N)
      (by omega)
    simpa [wait_for_service] using this
  · intro pre rest v hall hk
    unfold wait_for_service
    rw [waitLoop_prefix_retry (N : Int) pre 0 0 0 (.success v :: rest) hall
      (Or.inr (by push_cast; omega))]
    simp [waitLoop_success_cons]

/-- Witness for `wait_for_service_bounded_budget` at `N = 2`: three
consecutive refused connections time out after the third invocation, and
one refused connection followed by success returns after the second. -/
theorem wait_for_service_bounded_budget_witness :
    wait_for_service 2 (allRefused 3) = ⟨.timeout, 3, 2, 2⟩ ∧
    wait_for_service 2
        (allRefused 1 ++ CallOutcome.success 9 :: allRefused 2) =
      ⟨.ok 9, 2, 1, 1⟩ := by
  refine ⟨?_, ?_⟩
  · have h := (wait_for_service_bounded_budget (α := Nat) 2).1
      (allRefused 3) (by decide) (by decide)
    simpa using h
  · have h := (wait_for_service_bounded_budget (α := Nat) 2).2
      (allRefused 1) (allRefused 2) 9 (by decide) (by decide)
    simpa using h

/-- **C2.**  With `retries = -1` the loop can never raise `TimeoutError`
(no outcome list whatsoever makes the result `timeout`), and any finite
sequence of retryable connectivity failures followed by a success makes
`wait_for_service` return the successful result, consuming exactly one
invocation per failure plus the successful one. -/
theorem wait_for_service_unbounded_never_timeout {α : Type} :
    (∀ outs : List (CallOutcome α),
      (wait_for_service (-1) outs).result ≠ .timeout) ∧
    (∀ (pre rest : List (CallOutcome α)) (v : α),
      (∀ o ∈ pre, isRetryOutcome o = true) →
      wait_for_service (-1) (pre ++ .success v :: rest) =
        ⟨.ok v, pre.length + 1, pre.length, pre.length⟩) := by
  constructor
  · intro outs
    exact waitLoop_never_timeout_unbounded outs 0 0 0
  · intro pre rest v hall
    unfold wait_for_service
    rw [waitLoop_prefix_retry (-1) pre 0 0 0 (.success v :: rest) hall
      (Or.inl rfl)]
    simp [waitLoop_success_cons]

/-- Witness for `wait_for_service_unbounded_never_timeout`: with
`retries = -1`, 200 consecutive refused connections do not time out, and
four failures followed by success return that success on invocation 5. -/
theorem wait_for_service_unbounded_never_timeout_witness :
    (wait_for_service (-1) (allRefused 200)).result ≠ .timeout ∧
    wait_for_service (-1)
        (allRefused 4 ++ CallOutcome.success 11 :: allRefused 1) =
      ⟨.ok 11, 5, 4, 4⟩ := by
  refine ⟨?_, ?_⟩
  · exact (wait_for_service_unbounded_never_timeout (α := Nat)).1
      (allRefused 200)
  · have h := (wait_for_service_unbounded_never_timeout (α := Nat)).2
      (allRefused 4) (allRefused 1) 11 (by decide)
    simpa using h

/-- **C3.**  The loop retries exactly on the five connectivity exception
classes: an invocation raising any other exception ends the loop at once
with that very exception propagated — the remaining outcomes are never
consumed, and neither `count` nor the sleep counter moves beyond what the
earlier retryable failures produced.  Conversely, a connectivity exception
(when the budget is not exhausted) continues the loop with `count` and the
sleep counter incremented. -/
theorem wait_for_service_fatal_propagation {α : Type} (retries : Int) :
    (∀ (pre rest : List (CallOutcome α)) (e : IceExc),
      (∀ o ∈ pre, isRetryOutcome o = true) →
      isConnectivityExc e = false →
      (retries = -1 ∨ (pre.length : Int) ≤ retries) →
      wait_for_service retries (pre ++ .raises e :: rest) =
        ⟨.fatal e, pre.length + 1, pre.length, pre.length⟩) ∧
    (∀ (e : IceExc) (rest : List (CallOutcome α)),
      isConnectivityExc e = true →
      ¬(retries > -1 ∧ retries = 0) →
      wait_for_service retries (.raises e :: rest) =
        waitLoop retries 1 1 1 rest) := by
  constructor
  · intro pre rest e hall hfatal hbound
    unfold wait_for_service
    rw [waitLoop_prefix_retry retries pre 0 0 0 (.raises e :: rest) hall
      (by simpa using hbound)]
    simp [waitLoop_fatal_cons, hfatal]
  · intro e rest hconn hno
    unfold wait_for_service
    rw [waitLoop_retry_cons retries 0 0 0 e rest hconn,
      if_neg (by push_cast; exact hno)]

/-- Witness for `wait_for_service_fatal_propagation` at `retries = 3`:
after one refused connection, a `ValueError` ends the loop immediately and
is propagated itself, while a lone refused connection keeps the loop
going. -/
theorem wait_for_service_fatal_propagation_witness :
    wait_for_service 3
        (allRefused 1 ++ CallOutcome.raises (.otherExc "ValueError") ::
          allRefused 7) =
      ⟨.fatal (.otherExc "ValueError"), 2, 1, 1⟩ ∧
    wait_for_service 3 (CallOutcome.raises IceExc.noEndpoint ::
        allRefused 2) = waitLoop 3 1 1 1 (allRefused 2) := by
  refine ⟨?_, ?_⟩
  · have h := (wait_for_service_fatal_propagation (α := Nat) 3).1
      (allRefused 1) (allRefused 7) (.otherExc "ValueError")
      (by decide) (by decide) (by right; decide)
    simpa using h
  · exact (wait_for_service_fatal_propagation (α := Nat) 3).2
      IceExc.noEndpoint (allRefused 2) (by decide) (by decide)

/-- **C4.**  On a server whose configuration has been loaded,
`get_parameter` is total: it never raises, it returns `default` (whatever
it is, `None` included) whenever the namespaced key
`service_key ++ "." ++ key` is absent from the loaded mapping, and it
returns the stored value whenever that key is present. -/
theorem get_parameter_total_on_loaded_config (st : ServerState)
    (d : List (String × PyVal)) (key : String) (default : PyVal)
    (hloaded : st.parameters = some d) :
    (∃ r, get_parameter st key default = .ok r) ∧
    (dictGet d (st.service_key ++ "." ++ key) = none →
      get_parameter st key default = .ok default) ∧
    (∀ v, dictGet d (st.service_key ++ "." ++ key) = some v →
      get_parameter st key default = .ok v) := by
  have hgp : get_parameter st key default =
      .ok ((dictGet d (st.service_key ++ "." ++ key)).getD default) := by
    unfold get_parameter
    rw [hloaded]
  refine ⟨⟨(dictGet d (st.service_key ++ "." ++ key)).getD default, hgp⟩,
    ?_, ?_⟩
  · intro habs; rw [hgp, habs]; rfl
  · intro v hv; rw [hgp, hv]; rfl

/-- Witness for `get_parameter_total_on_loaded_config`: on a loaded
mapping `{"cp.a": "1"}` with service key `"cp"`, the absent key `"b"`
returns the default `None` and the present key `"a"` returns `"1"`. -/
theorem get_parameter_total_on_loaded_config_witness :
    get_parameter
        { parameters := some [("cp.a", .pystr "1")], service_key := "cp",
          configurable := true, monitoring := false, retries := -1,
          services := [] } "b" .pynone = .ok .pynone ∧
    get_parameter
        { parameters := some [("cp.a", .pystr "1")], service_key := "cp",
          configurable := true, monitoring := false, retries := -1,
          services := [] } "a" .pynone = .ok (.pystr "1") := by
  constructor
  · exact (get_parameter_total_on_loaded_config _ [("cp.a", .pystr "1")]
      "b" .pynone rfl).2.1 (by decide)
  · exact (get_parameter_total_on_loaded_config _ [("cp.a", .pystr "1")]
      "a" .pynone rfl).2.2 (.pystr "1") (by decide)

/-- **C5** is false as stated: with the argument
`--config=/tmp/a=b.cfg` (a path containing `=`), the unpacking
`k, v = arg.split("=")` raises `ValueError`, so `get_config` does not load
the referenced file even though the file is readable — it crashes before
opening it. -/
theorem get_config_eq_in_path_counterexample :
    get_config (server_init "cp" (-1)) eqPathEnv =
      (server_init "cp" (-1), .raisedValueError "--config=/tmp/a=b.cfg") ∧
    (get_config (server_init "cp" (-1)) eqPathEnv).2 ≠
      .loadedLocal "/tmp/a=b.cfg" := by
  constructor
  · decide
  · decide

/-- **C5** (amended).  If `argv` contains an argument starting with
`"--config="` and the server is configurable, `get_config` never reaches
the remote FCM lookup (hence never the retry machinery); and when that
argument splits on `"="` into exactly two parts (the path contains no
further `=`) and the expanded path is readable, `get_config` loads the
configuration from that file and returns. -/
theorem get_config_local_override (st : ServerState) (env : ConfigEnv)
    (arg : String)
    (hconf : st.configurable = true)
    (hfind : findConfigArg env.argv = some arg) :
    (get_config st env).2 ≠ .calledFCM ∧
    (∀ k v contents, pySplit arg '=' = [k, v] →
      env.readFile (env.expand v) = some contents →
      get_config st env =
        ({st with parameters := some (env.parset_to_dict contents)},
          .loadedLocal (env.expand v))) := by
  have hbranch : get_config st env = loadLocalConfig st env arg := by
    unfold get_config
    rw [if_neg (by rw [hconf]; exact fun h => h rfl), hfind]
  constructor
  · rw [hbranch]
    unfold loadLocalConfig
    split
    · split <;> intro h <;> cases h
    · intro h; cases h
  · intro k v contents hsplit hread
    rw [hbranch]
    unfold loadLocalConfig
    rw [hsplit]
    simp only [hread]

/-- Witness for `get_config_local_override`: with
`--config=$HOME/svc.cfg` present in `argv`, expansion to
`/home/user/svc.cfg` and a readable file there, `get_config` loads the
parsed parameters and does not call the FCM. -/
theorem get_config_local_override_witness :
    get_config (server_init "cp" (-1)) okPathEnv =
      ({server_init "cp" (-1) with
          parameters := some [("cp.retries", .pyint 3)]},
        .loadedLocal "/home/user/svc.cfg") ∧
    (get_config (server_init "cp" (-1)) okPathEnv).2 ≠ .calledFCM := by
  have h := get_config_local_override (server_init "cp" (-1)) okPathEnv
    "--config=$HOME/svc.cfg" rfl (by decide)
  exact ⟨h.2 "--config" "$HOME/svc.cfg" "cp.retries = 3" (by decide)
    (by decide), h.1⟩

/-- **C10.**  `get_parameter`'s totality needs a loaded configuration:
straight after `__init__`, `parameters` is `None`; with
`configurable = False`, `get_config` returns without touching
`parameters`; and on such a state any `get_parameter` call raises
`AttributeError` instead of returning the default. -/
theorem get_parameter_requires_loaded_config (fcmkey : String)
    (retries : Int) (key : String) (default : PyVal) (env : ConfigEnv) :
    (server_init fcmkey retries).parameters = none ∧
    get_parameter (server_init fcmkey retries) key default =
      .error (.attributeError "NoneType object has no attribute get") ∧
    get_config {server_init fcmkey retries with configurable := false}
        env =
      ({server_init fcmkey retries with configurable := false},
        .returnedUnconfigurable) ∧
    get_parameter {server_init fcmkey retries with configurable := false}
        key default =
      .error (.attributeError "NoneType object has no attribute get") := by
  exact ⟨rfl, rfl, rfl, rfl⟩

lemma run_hook_services (calls : List (String × Nat)) :
    ∀ st : ServerState, (run_hook st calls).services =
      st.services ++ calls := by
  induction calls with
  | nil => intro st; simp [run_hook]
  | cons c rest ih =>
    intro st
    have hstep : run_hook st (c :: rest) =
        run_hook (add_service st c.1 c.2) rest := rfl
    rw [hstep, ih, add_service]
    simp

lemma filter_bindEvents (l : List (String × Nat)) :
    (bindEvents l).filter isBindEvent = bindEvents l := by
  induction l with
  | nil => rfl
  | cons a t ih => simpa [bindEvents, isBindEvent] using ih

/-- **C6.**  `add_service` appends to an ordered list without
deduplicating names: any sequence of calls — repeated names included —
leaves one `(name, value)` entry per call, in call order, after the
existing entries; and the binding steps of `setup_services` are exactly
those entries in exactly that order. -/
theorem add_service_append_and_bind_order (st : ServerState)
    (calls : List (String × Nat)) (clsName : String) :
    (run_hook st calls).services = st.services ++ calls ∧
    (setup_services_trace clsName st calls).filter isBindEvent =
      bindEvents (st.services ++ calls) := by
  refine ⟨run_hook_services calls st, ?_⟩
  rw [setup_services_trace, run_hook_services calls st,
    List.filter_append, List.filter_append, List.filter_append,
    filter_bindEvents]
  have h1 : (preEvents clsName st.monitoring).filter isBindEvent = [] := by
    cases hm : st.monitoring <;>
      simp [preEvents, monEvents, isBindEvent, List.filter]
  have h2 : [Event.initHook].filter isBindEvent = [] := rfl
  have h3 : [Event.activateMain].filter isBindEvent = [] := rfl
  rw [h1, h2, h3]
  simp

lemma get?_lower_of_not_mem {α : Type} {a : α} {l₁ l₂ : List α}
    (h : a ∉ l₁) {j : Nat} (hj : (l₁ ++ l₂).get? j = some a) :
    l₁.length ≤ j := by
  by_contra hlt
  push_neg at hlt
  rw [List.get?_append hlt] at hj
  exact h (List.get?_mem hj)

lemma get?_upper_of_not_mem {α : Type} {a : α} {l₁ l₂ : List α}
    (h : a ∉ l₂) {j : Nat} (hj : (l₁ ++ l₂).get? j = some a) :
    j < l₁.length := by
  rcases Nat.lt_or_ge j l₁.length with hlt | hge
  · exact hlt
  · rw [List.get?_append_right hge] at hj
    exact absurd (List.get?_mem hj) h

lemma get?_position_unique {α : Type} {a : α} {l₁ l₂ : List α}
    (h₁ : a ∉ l₁) (h₂ : a ∉ l₂) {j : Nat}
    (hj : (l₁ ++ a :: l₂).get? j = some a) : j = l₁.length := by
  have hge : l₁.length ≤ j := get?_lower_of_not_mem h₁ hj
  rw [List.get?_append_right hge] at hj
  rcases hk : j - l₁.length with _ | m
  · omega
  · rw [hk, List.get?_cons_succ] at hj
    exact absurd (List.get?_mem hj) h₂

lemma initHook_not_mem_preEvents (clsName : String) (b : Bool) :
    Event.initHook ∉ preEvents clsName b := by
  cases b <;> simp [preEvents, monEvents]

lemma bind_not_mem_preEvents (clsName : String) (b : Bool) (n : String)
    (v : Nat) : Event.bind n v ∉ preEvents clsName b := by
  cases b <;> simp [preEvents, monEvents]

lemma activate_not_mem_preEvents (clsName : String) (b : Bool) :
    Event.activateMain ∉ preEvents clsName b := by
  cases b <;> simp [preEvents, monEvents]

lemma getConfig_not_mem_monEvents (clsName : String) (b : Bool) :
    Event.getConfig ∉ monEvents clsName b := by
  cases b <;> simp [monEvents]

/-- **C7.**  Phase ordering inside `setup_services`: configuration
resolution (`get_config`) happens strictly before the
`initialize_services` hook; the hook returns strictly before any
descriptor is bound into the main adapter; every binding strictly
precedes main-adapter activation; and at the moment activation is
attempted, every registered descriptor has already been bound — partial
activation cannot occur. -/
theorem setup_services_phase_ordering (clsName : String)
    (st : ServerState) (hookCalls : List (String × Nat)) (tr : List Event)
    (htr : tr = setup_services_trace clsName st hookCalls) :
    (∀ i j, tr.get? i = some .getConfig → tr.get? j = some .initHook →
      i < j) ∧
    (∀ i j n v, tr.get? i = some .initHook →
      tr.get? j = some (.bind n v) → i < j) ∧
    (∀ i j n v, tr.get? i = some (.bind n v) →
      tr.get? j = some .activateMain → i < j) ∧
    (∀ nv ∈ (run_hook st hookCalls).services, ∀ j,
      tr.get? j = some .activateMain →
      ∃ i, i < j ∧ tr.get? i = some (.bind nv.1 nv.2)) := by
  subst htr
  have e1 : setup_services_trace clsName st hookCalls =
      [Event.createAdapter (clsName ++ "Adapter")] ++ Event.getConfig ::
        (monEvents clsName st.monitoring ++
          (Event.initHook :: (bindEvents
            (run_hook st hookCalls).services ++
              [Event.activateMain]))) := by
    simp [setup_services_trace, preEvents, List.append_assoc]
  have e3 : setup_services_trace clsName st hookCalls =
      preEvents clsName st.monitoring ++ Event.initHook ::
        (bindEvents (run_hook st hookCalls).services ++
          [Event.activateMain]) := by
    simp [setup_services_trace, List.append_assoc]
  have e4 : setup_services_trace clsName st hookCalls =
      (preEvents clsName st.monitoring ++ [Event.initHook]) ++
        (bindEvents (run_hook st hookCalls).services ++
          [Event.activateMain]) := by
    simp [setup_services_trace, List.append_assoc]
  have e5 : setup_services_trace clsName st hookCalls =
      ((preEvents clsName st.monitoring ++ [Event.initHook]) ++
        bindEvents (run_hook st hookCalls).services) ++
        Event.activateMain :: [] := rfl
  have hact_front : Event.activateMain ∉
      (preEvents clsName st.monitoring ++ [Event.initHook]) ++
        bindEvents (run_hook st hookCalls).services := by
    intro h
    rcases List.mem_append.mp h with h | h
    · rcases List.mem_append.mp h with h | h
      · exact activate_not_mem_preEvents _ _ h
      · simp at h
    · simp [bindEvents] at h
  have hact_pos : ∀ j,
      (setup_services_trace clsName st hookCalls).get? j =
        some Event.activateMain →
      j = ((preEvents clsName st.monitoring ++ [Event.initHook]) ++
        bindEvents (run_hook st hookCalls).services).length := by
    intro j hj
    rw [e5] at hj
    exact get?_position_unique hact_front (by simp) hj
  refine ⟨?_, ?_, ?_, ?_⟩
  · intro i j hi hj
    rw [e1] at hi
    have hi1 : i = 1 := by
      have h2 : Event.getConfig ∉
          monEvents clsName st.monitoring ++
            (Event.initHook :: (bindEvents
              (run_hook st hookCalls).services ++
                [Event.activateMain])) := by
        intro h
        rcases List.mem_append.mp h with h | h
        · exact getConfig_not_mem_monEvents _ _ h
        · simp [bindEvents] at h
      simpa using get?_position_unique (by simp) h2 hi
    have hj2 : 2 ≤ j := by
      have e2 : setup_services_trace clsName st hookCalls =
          [Event.createAdapter (clsName ++ "Adapter"),
            Event.getConfig] ++
            (monEvents clsName st.monitoring ++
              (Event.initHook :: (bindEvents
                (run_hook st hookCalls).services ++
                  [Event.activateMain]))) := by
        simp [setup_services_trace, preEvents, List.append_assoc]
      rw [e2] at hj
      simpa using get?_lower_of_not_mem (by simp) hj
    omega
  · intro i j n v hi hj
    have hi' : i = (preEvents clsName st.monitoring).length := by
      rw [e3] at hi
      refine get?_position_unique (initHook_not_mem_preEvents _ _) ?_ hi
      intro h
      rcases List.mem_append.mp h with h | h
      · simp [bindEvents] at h
      · simp at h
    have hj' : (preEvents clsName st.monitoring ++
        [Event.initHook]).length ≤ j := by
      rw [e4] at hj
      refine get?_lower_of_not_mem ?_ hj
      intro h
      rcases List.mem_append.mp h with h | h
      · exact bind_not_mem_preEvents _ _ _ _ h
      · simp at h
    rw [List.length_append] at hj'
    simp at hj'
    omega
  · intro i j n v hi hj
    have hj' := hact_pos j hj
    have hi' : i < ((preEvents clsName st.monitoring ++
        [Event.initHook]) ++
        bindEvents (run_hook st hookCalls).services).length := by
      rw [e5] at hi
      exact get?_upper_of_not_mem (by simp) hi
    omega
  · intro nv hnv j hj
    have hj' := hact_pos j hj
    obtain ⟨n, hn⟩ := List.get?_of_mem hnv
    have hnlt : n < (run_hook st hookCalls).services.length := by
      obtain ⟨h, -⟩ := List.get?_eq_some.mp hn
      exact h
    refine ⟨(preEvents clsName st.monitoring ++
      [Event.initHook]).length + n, ?_, ?_⟩
    · rw [hj', List.length_append, List.length_append, bindEvents,
        List.length_map]
      simp
      omega
    · rw [e5, List.get?_append (by
        rw [List.length_append (preEvents clsName st.monitoring ++
          [Event.initHook]), bindEvents, List.length_map]
        omega)]
      rw [List.get?_append_right (by omega)]
      have hsub : (preEvents clsName st.monitoring ++
          [Event.initHook]).length + n -
          (preEvents clsName st.monitoring ++
            [Event.initHook]).length = n := by omega
      rw [hsub, bindEvents, List.get?_map, hn]
      rfl

/-- Witness for `setup_services_phase_ordering` on a concrete monitoring
server with two registered services (one name repeated): the hook
position precedes both bind positions, which precede activation. -/
theorem setup_services_phase_ordering_witness :
    (setup_services_trace "TestServer" {server_init "cp" (-1) with
        monitoring := true} [("svc", 1), ("svc", 2)]).get? 5 =
      some Event.initHook ∧
    (setup_services_trace "TestServer" {server_init "cp" (-1) with
        monitoring := true} [("svc", 1), ("svc", 2)]).get? 8 =
      some Event.activateMain ∧
    (5 : Nat) < 6 ∧
    ∃ i, i < 8 ∧ (setup_services_trace "TestServer"
        {server_init "cp" (-1) with monitoring := true}
        [("svc", 1), ("svc", 2)]).get? i = some (Event.bind "svc" 2) := by
  refine ⟨by decide, by decide, by decide, ?_⟩
  have h := (setup_services_phase_ordering "TestServer"
    {server_init "cp" (-1) with monitoring := true}
    [("svc", 1), ("svc", 2)] _ rfl).2.2.2 ("svc", 2) (by decide) 8
    (by decide)
  exact h

/-- **C8.**  Topic establishment is the three-step get-or-create
protocol: the first call is always `retrieve`; `create` is called if and
only if that `retrieve` failed with `NoSuchTopic`; the fallback
`retrieve` is called if and only if `create` then failed with
`TopicExists`; at most one `create` is ever issued; a topic found by the
first `retrieve` is returned as-is; and when a concurrent creator wins
the race, the caller ends up holding the topic the fallback `retrieve`
returns. -/
theorem topic_get_or_create_protocol (m : TopicManager) :
    ((topic_get_or_create m).2).head? = some .callRetrieve ∧
    (TMCall.callCreate ∈ (topic_get_or_create m).2 ↔
      m.retrieve1 = .error .noSuchTopic) ∧
    ((topic_get_or_create m).2 =
        [.callRetrieve, .callCreate, .callRetrieve] ↔
      (m.retrieve1 = .error .noSuchTopic ∧
        m.createT = .error .topicExists)) ∧
    ((topic_get_or_create m).2.count .callCreate ≤ 1) ∧
    (∀ t, m.retrieve1 = .ok t →
      topic_get_or_create m = (.ok t, [.callRetrieve])) ∧
    (∀ t, m.retrieve1 = .error .noSuchTopic →
      m.createT = .error .topicExists → m.retrieve2 = .ok t →
      (topic_get_or_create m).1 = .ok t) := by
  obtain ⟨r1, cr, r2⟩ := m
  cases r1 with
  | ok t1 => simp [topic_get_or_create]
  | error e1 =>
    cases e1 with
    | noSuchTopic =>
      cases cr with
      | ok t2 => simp [topic_get_or_create]
      | error e2 =>
        cases e2 with
        | noSuchTopic => simp [topic_get_or_create]
        | topicExists => simp [topic_get_or_create]
        | stormOther s => simp [topic_get_or_create]
    | topicExists => simp [topic_get_or_create]
    | stormOther s => simp [topic_get_or_create]

/-- Witness for `topic_get_or_create_protocol` on a manager losing the
creation race: the full three-call sequence runs and the caller ends with
the winner's topic. -/
theorem topic_get_or_create_protocol_witness :
    (topic_get_or_create raceTopicManager).1 = .ok 7 ∧
    (topic_get_or_create raceTopicManager).2 =
      [.callRetrieve, .callCreate, .callRetrieve] := by
  have h := topic_get_or_create_protocol raceTopicManager
  exact ⟨h.2.2.2.2.2 7 rfl rfl rfl, (h.2.2.1).mpr ⟨rfl, rfl⟩⟩

/-- **C9** is false as stated: an exception raised by the first
`retrieve` that is not `NoSuchTopic` (here a connection loss) propagates
to the caller unchanged — it is not surfaced as the fatal
`RuntimeError("ICE adapter initialisation failed")` wrapper, because the
bare `except:` encloses only the subscriber-adapter block, not the
topic-manager resolution or the retrieve/create/retrieve sequence. -/
theorem initialize_services_unwrapped_counterexample :
    initialize_services_subscription (-1) lostConnEnv =
      .raised (.storm (.stormOther "Ice.ConnectionLostException")) ∧
    initialize_services_subscription (-1) lostConnEnv ≠
      .raised (.runtimeError "ICE adapter initialisation failed") := by
  exact ⟨rfl, by decide⟩

/-- **C9** (amended).  The single fatal
`RuntimeError("ICE adapter initialisation failed")` wrapper covers
exactly the subscriber-adapter block (adapter creation, `addWithUUID`,
activation, subscriber registration): any exception there surfaces as
that wrapper, with the original exception discarded; whereas a
`TimeoutError` from the topic-manager resolution, a non-connectivity
exception propagated out of `wait_for_service`, and any unhandled
exception from the retrieve/create/retrieve sequence all reach the
caller unchanged. -/
theorem initialize_services_wrap_scope (retries : Int)
    (env : IngestEnv) :
    (∀ e, (wait_for_service retries env.managerOutcomes).result =
        .fatal e →
      initialize_services_subscription retries env =
        .raised (.ice e)) ∧
    ((wait_for_service retries env.managerOutcomes).result = .timeout →
      initialize_services_subscription retries env =
        .raised .timeoutError) ∧
    (∀ m e, (wait_for_service retries env.managerOutcomes).result =
        .ok m →
      (topic_get_or_create m).1 = .error e →
      initialize_services_subscription retries env =
        .raised (.storm e)) ∧
    (∀ m t s, (wait_for_service retries env.managerOutcomes).result =
        .ok m →
      (topic_get_or_create m).1 = .ok t →
      firstBlockError env.block = some s →
      initialize_services_subscription retries env =
        .raised (.runtimeError "ICE adapter initialisation failed")) := by
  refine ⟨?_, ?_, ?_, ?_⟩
  · intro e h
    simp only [initialize_services_subscription, h]
  · intro h
    simp only [initialize_services_subscription, h]
  · intro m e hm hg
    simp only [initialize_services_subscription, hm, hg]
  · intro m t s hm hg hs
    simp only [initialize_services_subscription, hm, hg, hs]

/-- Witness for `initialize_services_wrap_scope`: with the topic
established and `activate` raising inside the subscriber-adapter block,
the surfaced exception is the fixed `RuntimeError` wrapper. -/
theorem initialize_services_wrap_scope_witness :
    initialize_services_subscription (-1) failingBlockEnv =
      .raised (.runtimeError "ICE adapter initialisation failed") := by
  exact (initialize_services_wrap_scope (-1) failingBlockEnv).2.2.2
    okTopicManager 3 "Ice.NotRegisteredException" rfl rfl rfl
